import Mathlib

/-!
Verification of the bridge lifecycle subsystem of the relwave-app repository.

The definitions below are a shallow embedding of the Rust sources:
  * `src/src-tauri/src/bridge/process.rs` — the resolution pipeline
    (`spawn_bridge_process` and its strategy helpers) and the stdout/stderr
    forwarder (`spawn_bridge`);
  * `src/src-tauri/src/main.rs` — the `bridge_write` command, the command
    surface registered with the host (`invoke_handler`), and the startup
    glue (`main`'s setup closure).

The OS interface (environment variables, filesystem existence checks,
process creation, canonicalization) is abstracted into an `Env` record of
pure functions; compile-time `cfg` switches (`target_os = "windows"`,
`debug_assertions`) become boolean fields of the same record.  Paths are
modelled as strings, with `Path::join` appending a `/`-separated component,
so that the exact path strings probed by the code are visible to theorems.
A successfully spawned child process is identified by a `Nat`.
-/

/-- First hit of `f` over a list, mirroring a Rust `for` loop whose body
early-returns on success and falls through otherwise. -/
def firstSome {α β : Type} (f : α → Option β) : List α → Option β
  | [] => none
  | x :: xs =>
    match f x with
    | some b => some b
    | none => firstSome f xs

/-- Embeds Rust `Path::join`: appends one component (or a `/`-separated
component string) to a base path. -/
def pjoin (base component : String) : String := base ++ "/" ++ component

/-- Accumulator pass for `splitWhitespace`: `acc` holds the characters of
the current fragment in reverse. -/
def splitWhitespaceAux : List Char → List Char → List String
  | [], acc => if acc.isEmpty then [] else [String.mk acc.reverse]
  | c :: cs, acc =>
    if c.isWhitespace then
      (if acc.isEmpty then [] else [String.mk acc.reverse]) ++ splitWhitespaceAux cs []
    else splitWhitespaceAux cs (c :: acc)

/-- Embeds Rust `str::split_whitespace`: splits on whitespace, discarding
empty fragments. -/
def splitWhitespace (s : String) : List String :=
  splitWhitespaceAux s.data []

/-- The OS/platform context `spawn_bridge_process` runs against.
`windows` and `debugAssertions` embed the compile-time `cfg` switches;
`bridgeDevCmd` the `BRIDGE_DEV_CMD` environment variable
(`none` = unset / `env::var` returned `Err`); `resourceDir` and `exeDir`
the fallible directory lookups `get_resource_path` / `get_exe_dir`;
`pathExists` the `Path::exists` probe; `canonicalize` the fallible
`Path::canonicalize`; and `spawnOk prog args` the outcome of
`Command::spawn` for that candidate (`some pid` on success, `none` on an
OS-level spawn error). -/
structure Env where
  windows : Bool
  debugAssertions : Bool
  bridgeDevCmd : Option String
  resourceDir : Option String
  exeDir : Option String
  pathExists : String → Bool
  canonicalize : String → Option String
  spawnOk : String → List String → Option Nat

/-- Embeds `try_spawn` (process.rs lines 23–37): pipes are configured and
the spawn either yields a child or a formatted error string. -/
def try_spawn (env : Env) (program : String) (args : List String) : Except String Nat :=
  match env.spawnOk program args with
  | some c => Except.ok c
  | none => Except.error ("failed to spawn " ++ program)

/-- Embeds strategy 1 of `spawn_bridge_process` (process.rs lines 53–63):
the `BRIDGE_DEV_CMD` override, whitespace-split into program and args,
skipped when the value is empty or when the spawn fails. -/
def stratOverride (env : Env) : Option Nat :=
  match env.bridgeDevCmd with
  | none => none
  | some cmdline =>
    match splitWhitespace cmdline with
    | [] => none
    | prog :: args =>
      match try_spawn env prog args with
      | Except.ok c => some c
      | Except.error _ => none

/-- Embeds `try_bundled_exe` (process.rs lines 110–135): the direct
candidate is `bridge.exe` on Windows and `bridge` elsewhere; the `_up_`
fallback candidate is the literal `bridge.exe` on every platform. -/
def try_bundled_exe (env : Env) (resource_path : String) : Option Nat :=
  let bridge_exe := pjoin resource_path (if env.windows then "bridge.exe" else "bridge")
  let direct : Option Nat :=
    if env.pathExists bridge_exe then
      match try_spawn env bridge_exe [] with
      | Except.ok c => some c
      | Except.error _ => none
    else none
  match direct with
  | some c => some c
  | none =>
    let bridge_exe_up := pjoin (pjoin resource_path "_up_") "bridge.exe"
    if env.pathExists bridge_exe_up then
      match try_spawn env bridge_exe_up [] with
      | Except.ok c => some c
      | Except.error _ => none
    else none

/-- The two recognized script extensions, tried in this order. -/
def scriptExts : List String := ["cjs", "js"]

/-- Embeds `try_bundled_scripts` (process.rs lines 137–158): three base
directories, two extensions each, spawn `node <script>` at the first
existing script that spawns. -/
def try_bundled_scripts (env : Env) (resource_path : String) : Option Nat :=
  let search_paths : List String :=
    [ pjoin (pjoin resource_path "bridge") "dist",
      resource_path,
      pjoin (pjoin resource_path "_up_") "bridge/dist" ]
  firstSome (fun base_path =>
    firstSome (fun ext =>
      let script := pjoin base_path ("index." ++ ext)
      if env.pathExists script then
        match try_spawn env "node" [script] with
        | Except.ok c => some c
        | Except.error _ => none
      else none) scriptExts) search_paths

/-- Embeds `try_exe_dir_scripts` (process.rs lines 160–180). -/
def try_exe_dir_scripts (env : Env) (exe_dir : String) : Option Nat :=
  let search_paths : List String :=
    [ pjoin (pjoin exe_dir "bridge") "dist",
      pjoin (pjoin exe_dir "_up_") "bridge/dist" ]
  firstSome (fun base_path =>
    firstSome (fun ext =>
      let script := pjoin base_path ("index." ++ ext)
      if env.pathExists script then
        match try_spawn env "node" [script] with
        | Except.ok c => some c
        | Except.error _ => none
      else none) scriptExts) search_paths

/-- Embeds `try_exe_dir_binary` (process.rs lines 183–201): both candidate
names carry the platform suffix here (`bridge.exe` / `_up_/bridge.exe` on
Windows, `bridge` / `_up_/bridge` elsewhere). -/
def try_exe_dir_binary (env : Env) (exe_dir : String) : Option Nat :=
  let binary_names : List String :=
    if env.windows then ["bridge.exe", "_up_/bridge.exe"] else ["bridge", "_up_/bridge"]
  firstSome (fun name =>
    let exe_path := pjoin exe_dir name
    if env.pathExists exe_path then
      match try_spawn env exe_path [] with
      | Except.ok c => some c
      | Except.error _ => none
    else none) binary_names

/-- Embeds `try_local_dev_path` (process.rs lines 203–217): the relative
`bridge/dist/index.{cjs,js}` candidates, canonicalized before spawning. -/
def try_local_dev_path (env : Env) : Option Nat :=
  firstSome (fun ext =>
    let cand := pjoin (pjoin "bridge" "dist") ("index." ++ ext)
    if env.pathExists cand then
      match env.canonicalize cand with
      | some abs =>
        match try_spawn env "node" [abs] with
        | Except.ok c => some c
        | Except.error _ => none
      | none => none
    else none) scriptExts

/-- Embeds `try_parent_dev_path` (process.rs lines 219–238): the relative
`../../bridge/dist/index.{cjs,js}` candidates. -/
def try_parent_dev_path (env : Env) : Option Nat :=
  firstSome (fun ext =>
    let cand := pjoin (pjoin (pjoin (pjoin ".." "..") "bridge") "dist") ("index." ++ ext)
    if env.pathExists cand then
      match env.canonicalize cand with
      | some abs =>
        match try_spawn env "node" [abs] with
        | Except.ok c => some c
        | Except.error _ => none
      | none => none
    else none) scriptExts

/-- Embeds `try_pnpm_dev` (process.rs lines 241–250), the debug-only
package-runner fallback. -/
def try_pnpm_dev (env : Env) : Option Nat :=
  if env.windows then
    match try_spawn env "cmd" ["/C", "pnpm", "--prefix", "..\\bridge", "dev"] with
    | Except.ok c => some c
    | Except.error _ => none
  else
    match try_spawn env "pnpm" ["--prefix", "../bridge", "dev"] with
    | Except.ok c => some c
    | Except.error _ => none

/-- The aggregated exhaustion error (process.rs lines 101–107). -/
def errMsg : String :=
  "All bridge spawn attempts failed. For production: ensure bridge files are bundled and Node.js is installed. For development: ensure bridge/dist/index.cjs or index.js exists. Try setting BRIDGE_DEV_CMD environment variable."

/-- Embeds `spawn_bridge_process` (process.rs lines 52–108): each strategy
block early-returns on success (modelled with `Option.orElse` fall-through);
the two bundled probes run under one `resourceDir` lookup and the two
exe-dir probes under one `exeDir` lookup, exactly as in the source; the
pnpm fallback is gated on `debug_assertions`. -/
def spawn_bridge_process (env : Env) : Except String Nat :=
  let r := stratOverride env
  let r := r.orElse fun _ =>
    env.resourceDir.bind fun rp =>
      (try_bundled_exe env rp).orElse fun _ => try_bundled_scripts env rp
  let r := r.orElse fun _ =>
    env.exeDir.bind fun d =>
      (try_exe_dir_binary env d).orElse fun _ => try_exe_dir_scripts env d
  let r := r.orElse fun _ => try_local_dev_path env
  let r := r.orElse fun _ => try_parent_dev_path env
  let r := r.orElse fun _ => if env.debugAssertions then try_pnpm_dev env else none
  match r with
  | some c => Except.ok c
  | none => Except.error errMsg

/-- The eight resolution strategies of `spawn_bridge_process`, listed in
the priority order the source tries them. -/
def strategies (env : Env) : List (Option Nat) :=
  [ stratOverride env,
    env.resourceDir.bind fun rp => try_bundled_exe env rp,
    env.resourceDir.bind fun rp => try_bundled_scripts env rp,
    env.exeDir.bind fun d => try_exe_dir_binary env d,
    env.exeDir.bind fun d => try_exe_dir_scripts env d,
    try_local_dev_path env,
    try_parent_dev_path env,
    if env.debugAssertions then try_pnpm_dev env else none ]

/-- Substring test over character lists, used to state that the
aggregated exhaustion message mentions its remediation hints. -/
def hasSubstring : List Char → List Char → Bool
  | [], needle => needle.isEmpty
  | h :: t, needle => needle.isPrefixOf (h :: t) || hasSubstring t needle

/-- Embeds the startup glue of `main` (main.rs lines 384–407): on a
successful spawn the child is installed in the managed slot; on failure the
slot is installed empty and setup still returns `Ok`, so the host keeps
running without a bridge. -/
def setup (env : Env) : Option Nat × Except String Unit :=
  match spawn_bridge_process env with
  | Except.ok c => (some c, Except.ok ())
  | Except.error _ => (none, Except.ok ())

/-- Embeds the command surface registered with the host runtime
(main.rs line 404, `invoke_handler(tauri::generate_handler![bridge_write])`):
the list of command names the host exposes. -/
def invokeHandlerCommands : List String := ["bridge_write"]

/-- The child's stdin pipe as `bridge_write` sees it: `accepting` models
whether OS writes on it still succeed (`false` = broken pipe), `bytes` the
bytes written so far, `flushed` whether a flush followed the last write. -/
structure ChildStdin where
  accepting : Bool
  bytes : List Nat
  flushed : Bool
deriving DecidableEq, Repr

/-- The child process as held in the managed slot, with its optional stdin
handle (`child.stdin` is an `Option` in Rust). -/
structure ChildHandle where
  stdin : Option ChildStdin
deriving DecidableEq, Repr

/-- Embeds `std::io::Write::write_all` on the child's stdin: appends the
bytes, or fails without appending when the pipe is broken. -/
def write_all (st : ChildStdin) (data : List Nat) : Except String ChildStdin :=
  if st.accepting then Except.ok { st with bytes := st.bytes ++ data, flushed := false }
  else Except.error "broken pipe"

/-- Embeds `std::io::Write::flush` on the child's stdin. -/
def stdinFlush (st : ChildStdin) : Except String ChildStdin :=
  Except.ok { st with flushed := true }

/-- UTF-8 encoding of one character. -/
def utf8Bytes (c : Char) : List Nat :=
  let n := c.toNat
  if n < 128 then [n]
  else if n < 2048 then [192 + n / 64, 128 + n % 64]
  else if n < 65536 then [224 + n / 4096, 128 + (n / 64) % 64, 128 + n % 64]
  else [240 + n / 262144, 128 + (n / 4096) % 64, 128 + (n / 64) % 64, 128 + n % 64]

/-- UTF-8 bytes of a string, as `str::as_bytes` exposes them. -/
def strBytes (s : String) : List Nat := s.data.flatMap utf8Bytes

/-- Embeds the `bridge_write` command (main.rs lines 12–25): under the slot
lock, writes the data bytes, then the single byte `\n`, then flushes;
errors when the slot is empty or the stdin handle is missing. Returns the
call's result together with the slot state after the call. -/
def bridge_write (data : String) (slot : Option ChildHandle) :
    Except String Unit × Option ChildHandle :=
  match slot with
  | none => (Except.error "bridge not available", none)
  | some child =>
    match child.stdin with
    | none => (Except.error "bridge stdin missing", some child)
    | some st =>
      match write_all st (strBytes data) with
      | Except.error e => (Except.error e, some child)
      | Except.ok st1 =>
        match write_all st1 [10] with
        | Except.error e => (Except.error e, some { child with stdin := some st1 })
        | Except.ok st2 =>
          match stdinFlush st2 with
          | Except.error e => (Except.error e, some { child with stdin := some st2 })
          | Except.ok st3 => (Except.ok (), some { child with stdin := some st3 })

/-- The newline character, `\n`. -/
def chNL : Char := Char.ofNat 10

/-- The carriage-return character, `\r`. -/
def chCR : Char := Char.ofNat 13

/-- Strips one trailing carriage return, as `BufRead::lines` does after
removing the newline of a terminated line. -/
def stripCR (l : List Char) : List Char :=
  if l.getLast? = some chCR then l.dropLast else l

/-- Accumulator pass for `rustLines`: `acc` holds the characters of the
line being assembled, in reverse.  A line terminated by `\n` is emitted
with the terminator (and a preceding `\r`, if any) stripped; a final
unterminated line is emitted as-is; no final empty line is emitted. -/
def linesAux : List Char → List Char → List (List Char)
  | [], acc => if acc.isEmpty then [] else [acc.reverse]
  | c :: cs, acc =>
    if c = chNL then stripCR acc.reverse :: linesAux cs []
    else linesAux cs (c :: acc)

/-- Embeds `BufRead::lines` on a fully buffered stream (decoding errors,
which `.flatten()` would drop, are outside this character-level model). -/
def rustLines (content : List Char) : List (List Char) :=
  linesAux content []

/-- Embeds the stdout forwarder thread of `spawn_bridge` (process.rs lines
257–265): one `bridge-stdout` event per complete line, in stream order,
payload the line without its terminator. -/
def forwardStdout (content : List Char) : List (String × String) :=
  (rustLines content).map (fun l => ("bridge-stdout", String.mk l))

/-! ### Helper lemmas -/

theorem firstSome_id_nil : firstSome id ([] : List (Option Nat)) = none := rfl

theorem firstSome_id_cons (o : Option Nat) (l : List (Option Nat)) :
    firstSome id (o :: l) = o.orElse fun _ => firstSome id l := by
  cases o <;> rfl

theorem orElse_none_right (o : Option Nat) : (o.orElse fun _ => none) = o := by
  cases o <;> rfl

theorem orElse_assoc (a : Option Nat) (f g : Unit → Option Nat) :
    ((a.orElse f).orElse g) = a.orElse fun _ => ((f ()).orElse g) := by
  cases a <;> rfl

theorem bind_pair (o : Option String) (f g : String → Option Nat) :
    (o.bind fun a => (f a).orElse fun _ => g a) =
      (o.bind f).orElse fun _ => o.bind g := by
  cases o <;> rfl

/-- `spawn_bridge_process` is the first-success fold of the eight
strategies in priority order, with the aggregated error on exhaustion. -/
theorem spawn_eq_firstSome (env : Env) :
    spawn_bridge_process env =
      match firstSome id (strategies env) with
      | some c => Except.ok c
      | none => Except.error errMsg := by
  simp only [spawn_bridge_process, strategies, firstSome_id_cons, firstSome_id_nil,
    bind_pair, orElse_assoc, orElse_none_right]

theorem firstSome_id_of_get (l : List (Option Nat)) (N : Nat) (c : Nat)
    (hN : l.get? N = some (some c))
    (hb : ∀ i, i < N → l.get? i = some none) :
    firstSome id l = some c := by
  induction l generalizing N with
  | nil => simp [List.get?] at hN
  | cons x xs ih =>
    cases N with
    | zero =>
      simp [List.get?] at hN
      rw [hN]
      rfl
    | succ n =>
      have hx : x = none := by
        have h0 := hb 0 (Nat.succ_pos n)
        simpa [List.get?] using h0
      subst hx
      show firstSome id xs = some c
      exact ih n (by simpa [List.get?] using hN)
        (fun i hi => by
          have hstep := hb (i + 1) (Nat.succ_lt_succ hi)
          simpa [List.get?] using hstep)

theorem firstSome_id_none (l : List (Option Nat))
    (h : ∀ o ∈ l, o = none) : firstSome id l = none := by
  induction l with
  | nil => rfl
  | cons x xs ih =>
    have hx : x = none := h x (List.mem_cons_self x xs)
    subst hx
    show firstSome id xs = none
    exact ih (fun o ho => h o (List.mem_cons_of_mem _ ho))

theorem stripCR_eq (l : List Char) (h : l.getLast? ≠ some chCR) :
    stripCR l = l := by
  unfold stripCR
  exact if_neg h

theorem linesAux_line (l : List Char) (rest acc : List Char) (hl : chNL ∉ l) :
    linesAux (l ++ chNL :: rest) acc =
      stripCR (acc.reverse ++ l) :: linesAux rest [] := by
  revert hl
  induction l generalizing acc with
  | nil =>
    intro _
    simp [linesAux]
  | cons c cs ih =>
    intro hl
    have hc : c ≠ chNL := by
      intro h
      exact hl (h ▸ List.mem_cons_self c cs)
    have hcs : chNL ∉ cs := fun h => hl (List.mem_cons_of_mem c h)
    show linesAux (c :: (cs ++ chNL :: rest)) acc = _
    rw [linesAux, if_neg hc, ih (c :: acc) hcs]
    simp [List.append_assoc]

/-! ### Claim theorems -/

/-- C1: For every ordered list of resolution strategies where exactly one
strategy N both finds an existing artifact and spawns it successfully,
resolution returns strategy N's process and evaluates no strategy after N:
the resolver tries the strategies in the fixed priority order (override,
bundled binary, bundled script, executable-adjacent binary,
executable-adjacent script, local dev tree, parent dev tree, dev runner) —
the order of the `strategies` list — and returns at the first successful
spawn.  Independence from later strategies is expressed by the second
conjunct: any environment that agrees with `env` on strategies up to N
resolves to the same process, whatever its later strategies would do. -/
theorem resolution_first_success (env env' : Env) (N : Nat) (c : Nat)
    (hN : (strategies env).get? N = some (some c))
    (hb : ∀ i, i < N → (strategies env).get? i = some none)
    (hagree : ∀ i, i ≤ N → (strategies env').get? i = (strategies env).get? i) :
    spawn_bridge_process env = Except.ok c ∧
    spawn_bridge_process env' = Except.ok c := by
  have h1 : firstSome id (strategies env) = some c :=
    firstSome_id_of_get _ N c hN hb
  have h2 : firstSome id (strategies env') = some c :=
    firstSome_id_of_get _ N c
      (by rw [hagree N (Nat.le_refl N)]; exact hN)
      (fun i hi => by rw [hagree i (Nat.le_of_lt hi)]; exact hb i hi)
  constructor
  · rw [spawn_eq_firstSome, h1]
  · rw [spawn_eq_firstSome, h2]

/-- Witness environment for C1: no override, a bundled `bridge` binary in
the resource directory that exists and spawns (strategy index 1); strategy
index 0 yields nothing. -/
def envW1 : Env :=
  { windows := false, debugAssertions := false,
    bridgeDevCmd := none,
    resourceDir := some "res", exeDir := none,
    pathExists := fun p => p == "res/bridge",
    canonicalize := fun _ => none,
    spawnOk := fun p a => if p == "res/bridge" && a.isEmpty then some 7 else none }

/-- Witness environment for C1 that additionally differs from `envW1` in
every strategy after index 1 (its dev-tree scripts would also spawn). -/
def envW1b : Env :=
  { envW1 with
    pathExists := fun p => p == "res/bridge" || p == "bridge/dist/index.cjs",
    canonicalize := fun p => some ("abs/" ++ p),
    spawnOk := fun p _ => if p == "res/bridge" || p == "node" then some 7 else none }

theorem resolution_first_success_witness :
    spawn_bridge_process envW1 = Except.ok 7 ∧
    spawn_bridge_process envW1b = Except.ok 7 :=
  resolution_first_success envW1 envW1b 1 7 (by decide)
    (fun i hi => by
      have h0 : i = 0 := Nat.lt_one_iff.mp hi
      subst h0
      decide)
    (fun i hi => by
      have h1 : i = 0 ∨ i = 1 := by omega
      rcases h1 with h1 | h1 <;> subst h1 <;> decide)

/-- C2: A strategy whose artifact exists but whose spawn attempt errors is
swallowed and resolution continues: if strategies 0..N yield no process
(in particular when their artifacts exist but their spawns fail, as the
second conjunct shows concretely for the bundled-script strategy, whose
result is `none` whenever every `node` spawn errors) and strategy N+1
yields process `c`, resolution returns `c`; and no strategy-level or
spawn-level error ever surfaces: the only error resolution can return is
the aggregated exhaustion message. -/
theorem resolution_skips_failed (env : Env) (N : Nat) (c : Nat)
    (hfail : ∀ i, i ≤ N → (strategies env).get? i = some none)
    (hnext : (strategies env).get? (N + 1) = some (some c)) :
    spawn_bridge_process env = Except.ok c ∧
    (∀ env2 rp, (∀ args, env2.spawnOk "node" args = none) →
      try_bundled_scripts env2 rp = none) ∧
    (∀ env3 m, spawn_bridge_process env3 = Except.error m → m = errMsg) := by
  refine ⟨?_, ?_, ?_⟩
  · have h1 : firstSome id (strategies env) = some c :=
      firstSome_id_of_get _ (N + 1) c hnext
        (fun i hi => hfail i (Nat.lt_succ_iff.mp hi))
    rw [spawn_eq_firstSome, h1]
  · intro env2 rp h
    simp [try_bundled_scripts, firstSome, scriptExts, try_spawn, h]
  · intro env3 m h
    rw [spawn_eq_firstSome env3] at h
    cases hf : firstSome id (strategies env3) with
    | some c2 => rw [hf] at h; exact absurd h (by simp)
    | none =>
      rw [hf] at h
      injection h with h'
      exact h'.symm

/-- Witness environment for C2: the override is set and its artifact "is
found" (the variable parses to a program) but the spawn of `badprog`
fails; the bundled `bridge` binary (strategy 1) exists and spawns. -/
def envW2 : Env :=
  { windows := false, debugAssertions := false,
    bridgeDevCmd := some "badprog",
    resourceDir := some "res", exeDir := none,
    pathExists := fun p => p == "res/bridge",
    canonicalize := fun _ => none,
    spawnOk := fun p a => if p == "res/bridge" && a.isEmpty then some 2 else none }

theorem resolution_skips_failed_witness :
    spawn_bridge_process envW2 = Except.ok 2 :=
  (resolution_skips_failed envW2 0 2
    (fun i hi => by
      have h0 : i = 0 := Nat.le_zero.mp hi
      subst h0
      decide)
    (by decide)).1

/-- C3: A non-empty `BRIDGE_DEV_CMD` is evaluated before every other
strategy and is whitespace-split into program and argument list with no
quoting: with `BRIDGE_DEV_CMD="echo hello"`, resolution spawns program
`echo` with arguments `["hello"]` and returns that process, whatever the
filesystem strategies would find (the theorem places no constraint on
them). -/
theorem override_echo_hello (env : Env) (c : Nat)
    (henv : env.bridgeDevCmd = some "echo hello")
    (hspawn : env.spawnOk "echo" ["hello"] = some c) :
    spawn_bridge_process env = Except.ok c ∧
    splitWhitespace "echo hello" = ["echo", "hello"] := by
  have hsplit : splitWhitespace "echo hello" = ["echo", "hello"] := by decide
  have ho : stratOverride env = some c := by
    simp [stratOverride, henv, hsplit, try_spawn, hspawn]
  have h1 : firstSome id (strategies env) = some c := by
    simp only [strategies, firstSome_id_cons, ho]
    rfl
  constructor
  · rw [spawn_eq_firstSome, h1]
  · exact hsplit

/-- Witness environment for C3: `BRIDGE_DEV_CMD="echo hello"`, no
filesystem artifact present, `echo hello` spawns as process 3. -/
def envW3 : Env :=
  { windows := false, debugAssertions := false,
    bridgeDevCmd := some "echo hello",
    resourceDir := none, exeDir := none,
    pathExists := fun _ => false,
    canonicalize := fun _ => none,
    spawnOk := fun p a => if p == "echo" && a == ["hello"] then some 3 else none }

theorem override_echo_hello_witness :
    spawn_bridge_process envW3 = Except.ok 3 ∧
    splitWhitespace "echo hello" = ["echo", "hello"] :=
  override_echo_hello envW3 3 rfl (by decide)

/-- C10: An override that is set but empty/whitespace-only, or whose spawn
attempt fails, is silently skipped: resolution behaves exactly as if
`BRIDGE_DEV_CMD` were unset, proceeding to the filesystem strategies
rather than failing. -/
theorem override_failure_nonfatal (env : Env) (v : String)
    (hv : env.bridgeDevCmd = some v)
    (h : splitWhitespace v = [] ∨
         ∀ p args, splitWhitespace v = p :: args → env.spawnOk p args = none) :
    spawn_bridge_process env =
      spawn_bridge_process { env with bridgeDevCmd := none } := by
  have ho : stratOverride env = none := by
    cases hcase : splitWhitespace v with
    | nil => simp [stratOverride, hv, hcase]
    | cons p args =>
      rcases h with h1 | h2
      · rw [hcase] at h1
        cases h1
      · simp [stratOverride, hv, hcase, try_spawn, h2 p args hcase]
  have ho' : stratOverride { env with bridgeDevCmd := none } = none := rfl
  have hlist : firstSome id (strategies env) =
      firstSome id (strategies { env with bridgeDevCmd := none }) := by
    simp only [strategies, firstSome_id_cons, ho, ho']
    rfl
  rw [spawn_eq_firstSome, spawn_eq_firstSome, hlist]

/-- Witness environment for C10: `BRIDGE_DEV_CMD` set to whitespace only,
with a bundled binary available to the filesystem strategies. -/
def envW10 : Env :=
  { windows := false, debugAssertions := false,
    bridgeDevCmd := some "   ",
    resourceDir := some "res", exeDir := none,
    pathExists := fun p => p == "res/bridge",
    canonicalize := fun _ => none,
    spawnOk := fun p a => if p == "res/bridge" && a.isEmpty then some 4 else none }

theorem override_failure_nonfatal_witness :
    spawn_bridge_process envW10 =
      spawn_bridge_process { envW10 with bridgeDevCmd := none } :=
  override_failure_nonfatal envW10 "   " rfl (Or.inl (by decide))

/-- Counterexample environment for C4: a non-Windows platform whose
resource directory relocation subdirectory holds the platform-named
binary `res/_up_/bridge`, and on which every spawn attempt would
succeed. -/
def envC4 : Env :=
  { windows := false, debugAssertions := false,
    bridgeDevCmd := none,
    resourceDir := some "res", exeDir := none,
    pathExists := fun p => p == "res/_up_/bridge",
    canonicalize := fun _ => none,
    spawnOk := fun _ _ => some 5 }

/-- C4 counterexample: on a non-Windows platform the platform-appropriately
named candidate `res/_up_/bridge` exists and would spawn, yet the
bundled-binary strategy finds nothing and the whole resolution fails,
because the code probes the literal name `res/_up_/bridge.exe` under the
relocation directory on every platform. -/
theorem bundled_exe_up_not_platform_named :
    envC4.windows = false ∧
    envC4.pathExists (pjoin (pjoin "res" "_up_") "bridge") = true ∧
    envC4.spawnOk (pjoin (pjoin "res" "_up_") "bridge") [] = some 5 ∧
    try_bundled_exe envC4 "res" = none ∧
    spawn_bridge_process envC4 = Except.error errMsg :=
  ⟨rfl, by decide, rfl, by decide, rfl⟩

/-- C4 amended: the bundled-native-binary strategy searches the
bundled-resource directory for an executable named by the platform
convention (`bridge.exe` on Windows, `bridge` elsewhere), but the
candidate one level under the installer-relocation directory `_up_` is
always named `bridge.exe`, on every platform; it is consulted when the
direct candidate is absent or fails to spawn. -/
theorem bundled_exe_naming (env : Env) (rp : String) (c : Nat) :
    (env.pathExists (pjoin rp (if env.windows then "bridge.exe" else "bridge")) = true →
     env.spawnOk (pjoin rp (if env.windows then "bridge.exe" else "bridge")) [] = some c →
     try_bundled_exe env rp = some c) ∧
    ((env.pathExists (pjoin rp (if env.windows then "bridge.exe" else "bridge")) = false ∨
      env.spawnOk (pjoin rp (if env.windows then "bridge.exe" else "bridge")) [] = none) →
     env.pathExists (pjoin (pjoin rp "_up_") "bridge.exe") = true →
     env.spawnOk (pjoin (pjoin rp "_up_") "bridge.exe") [] = some c →
     try_bundled_exe env rp = some c) := by
  constructor
  · intro h1 h2
    simp [try_bundled_exe, try_spawn, h1, h2]
  · intro h1 h2 h3
    rcases h1 with h1 | h1
    · simp [try_bundled_exe, try_spawn, h1, h2, h3]
    · cases hpe : env.pathExists (pjoin rp (if env.windows then "bridge.exe" else "bridge")) with
      | false => simp [try_bundled_exe, try_spawn, hpe, h2, h3]
      | true => simp [try_bundled_exe, try_spawn, hpe, h1, h2, h3]

/-- Witness environment for the first conjunct of the amended C4: a
Windows resource directory with a direct `bridge.exe`. -/
def envW4a : Env :=
  { windows := true, debugAssertions := false,
    bridgeDevCmd := none,
    resourceDir := some "res", exeDir := none,
    pathExists := fun p => p == "res/bridge.exe",
    canonicalize := fun _ => none,
    spawnOk := fun p a => if p == "res/bridge.exe" && a.isEmpty then some 7 else none }

/-- Witness environment for the second conjunct of the amended C4: a
non-Windows resource directory whose only binary is `_up_/bridge.exe`. -/
def envW4b : Env :=
  { windows := false, debugAssertions := false,
    bridgeDevCmd := none,
    resourceDir := some "res", exeDir := none,
    pathExists := fun p => p == "res/_up_/bridge.exe",
    canonicalize := fun _ => none,
    spawnOk := fun p a => if p == "res/_up_/bridge.exe" && a.isEmpty then some 8 else none }

theorem bundled_exe_naming_witness :
    try_bundled_exe envW4a "res" = some 7 ∧ try_bundled_exe envW4b "res" = some 8 :=
  ⟨(bundled_exe_naming envW4a "res" 7).1 (by decide) (by decide),
   (bundled_exe_naming envW4b "res" 8).2 (Or.inl (by decide)) (by decide) (by decide)⟩

/-- C5: for an installed bridge process with a live stdin handle, a
`bridge_write "ping"` call succeeds and appends to the child's input
stream exactly the data bytes followed by exactly one newline byte, and
leaves the stream flushed; the appended bytes are exactly the UTF-8 bytes
of `"ping\n"`. -/
theorem bridge_write_ping (child : ChildHandle) (st : ChildStdin)
    (hstdin : child.stdin = some st) (hacc : st.accepting = true) :
    bridge_write "ping" (some child) =
      (Except.ok (),
        some { child with
          stdin := some { st with
            bytes := st.bytes ++ strBytes "ping" ++ [10], flushed := true } }) ∧
    strBytes "ping" ++ [10] = strBytes "ping\n" := by
  constructor
  · simp [bridge_write, hstdin, write_all, hacc, stdinFlush, List.append_assoc]
  · decide

/-- Witness child for C5: a live stdin handle with an empty stream. -/
def childW : ChildHandle :=
  { stdin := some { accepting := true, bytes := [], flushed := false } }

theorem bridge_write_ping_witness :
    bridge_write "ping" (some childW) =
      (Except.ok (),
        some (ChildHandle.mk (some (ChildStdin.mk true (strBytes "ping" ++ [10]) true)))) ∧
    strBytes "ping" ++ [10] = strBytes "ping\n" :=
  bridge_write_ping childW { accepting := true, bytes := [], flushed := false } rfl rfl

/-- C6: calling the bridge write operation while the single-process slot
is empty returns the "no process" error (`bridge not available`)
immediately, leaves the slot empty, and performs no write and no spawn;
`bridge_write` is the only bridge operation the host exposes (see
`invokeHandlerCommands`). -/
theorem bridge_write_no_process (data : String) :
    bridge_write data none = (Except.error "bridge not available", none) := rfl

/-- C7 counterexample: the command surface registered with the host
(`invoke_handler(tauri::generate_handler![bridge_write])`) contains no
restart and no status operation, under any of their plausible names, so
the claimed `restart()`/`status()` operations do not exist. -/
theorem commands_no_restart_status :
    ("restart" ∉ invokeHandlerCommands) ∧
    ("status" ∉ invokeHandlerCommands) ∧
    ("bridge_restart" ∉ invokeHandlerCommands) ∧
    ("bridge_status" ∉ invokeHandlerCommands) := by decide

/-- C7 amended: the host exposes exactly one bridge command, the write
operation `bridge_write`; no restart and no status operation is
registered, so no restart/replace behavior is available to the host. -/
theorem command_surface_write_only :
    invokeHandlerCommands = ["bridge_write"] ∧
    (∀ cmd ∈ invokeHandlerCommands, cmd = "bridge_write") := by decide

theorem command_surface_write_only_witness :
    "bridge_write" = "bridge_write" :=
  command_surface_write_only.2 "bridge_write" (by decide)

/-- C8: a bridge process whose stdout consists of exactly three
newline-terminated lines produces exactly three `bridge-stdout` events, in
arrival order, each carrying exactly one line with its terminator
stripped. -/
theorem stdout_three_lines (l1 l2 l3 : List Char)
    (h1 : chNL ∉ l1 ∧ l1.getLast? ≠ some chCR)
    (h2 : chNL ∉ l2 ∧ l2.getLast? ≠ some chCR)
    (h3 : chNL ∉ l3 ∧ l3.getLast? ≠ some chCR) :
    forwardStdout (l1 ++ chNL :: (l2 ++ chNL :: (l3 ++ [chNL]))) =
      [("bridge-stdout", String.mk l1),
       ("bridge-stdout", String.mk l2),
       ("bridge-stdout", String.mk l3)] := by
  unfold forwardStdout rustLines
  rw [linesAux_line l1 _ [] h1.1, linesAux_line l2 _ [] h2.1,
    linesAux_line l3 _ [] h3.1]
  simp only [List.reverse_nil, List.nil_append]
  rw [stripCR_eq l1 h1.2, stripCR_eq l2 h2.2, stripCR_eq l3 h3.2]
  simp [linesAux]

theorem stdout_three_lines_witness :
    forwardStdout (['a'] ++ chNL :: (['b'] ++ chNL :: (['c'] ++ [chNL]))) =
      [("bridge-stdout", String.mk ['a']),
       ("bridge-stdout", String.mk ['b']),
       ("bridge-stdout", String.mk ['c'])] :=
  stdout_three_lines ['a'] ['b'] ['c'] (by decide) (by decide) (by decide)

/-- C9: when every resolution strategy is exhausted without a successful
spawn, resolution returns exactly one aggregated error — the fixed message
that mentions the bundled files, the Node.js interpreter and the
`BRIDGE_DEV_CMD` override as remediation — the slot is installed empty,
and setup still returns `Ok`, so the host keeps running without a bridge
process. -/
theorem resolution_exhausted (env : Env)
    (h : ∀ o ∈ strategies env, o = none) :
    spawn_bridge_process env = Except.error errMsg ∧
    setup env = (none, Except.ok ()) ∧
    hasSubstring errMsg.data "bundled".data = true ∧
    hasSubstring errMsg.data "Node.js".data = true ∧
    hasSubstring errMsg.data "BRIDGE_DEV_CMD".data = true := by
  have hf : firstSome id (strategies env) = none := firstSome_id_none _ h
  have hs : spawn_bridge_process env = Except.error errMsg := by
    rw [spawn_eq_firstSome, hf]
  exact ⟨hs, by simp [setup, hs], by decide, by decide, by decide⟩

/-- Witness environment for C9: nothing set, nothing on disk, every spawn
fails — even the debug-only pnpm fallback is reached and fails. -/
def envW9 : Env :=
  { windows := false, debugAssertions := true,
    bridgeDevCmd := none, resourceDir := none, exeDir := none,
    pathExists := fun _ => false, canonicalize := fun _ => none,
    spawnOk := fun _ _ => none }

theorem resolution_exhausted_witness :
    spawn_bridge_process envW9 = Except.error errMsg ∧
    setup envW9 = (none, Except.ok ()) ∧
    hasSubstring errMsg.data "bundled".data = true ∧
    hasSubstring errMsg.data "Node.js".data = true ∧
    hasSubstring errMsg.data "BRIDGE_DEV_CMD".data = true :=
  resolution_exhausted envW9 (by decide)
